import Mathlib

/-!
Shallow embedding of the sharded aggregation command of
`src/mongo/s/commands/cluster_pipeline_cmd.cpp` (class `PipelineCommand`),
together with proofs about its control flow: cursor validation and cleanup,
representative error codes, the legacy no-cursor fallback, explain handling,
the merge step and the stale-config passthrough path.

BSON documents are modelled by records holding exactly the fields the command
reads.  A field whose extraction can throw in the C++ (`.Obj()`, `.Long()`,
`.String()` on a missing or mistyped element) is an `Option`; `none` stands
for the throwing case.  Exceptions are modelled with `Except`; `uassert`
(user-facing) and `massert` (fatal protocol assertion) failures are kept as
distinct constructors.
-/

namespace ClusterPipelineCmd

/-- The `cursor` sub-document of one shard reply, as read by the command:
`firstBatchEmpty = some b` models `result["cursor"]["firstBatch"].Obj().isEmpty() = b`
(`none`: the extraction throws), `id` models `cursor["id"].Long()`, and
`ns` models `cursor["ns"].String()`. -/
structure CursorDoc where
  firstBatchEmpty : Option Bool
  id : Option Int
  ns : Option String
deriving Repr, DecidableEq

/-- One entry of the `Strategy::CommandResult` vector returned by the scatter
dispatch: the name of the shard, the exact host the command ran on, and the
fields of the reply document that the command reads (`ok`, `code`, `errmsg`,
the `cursor` sub-document, and whether a `stages` field is present). -/
structure ShardResult where
  shardName : String
  host : String
  ok : Bool
  code : Int
  errmsg : String
  cursor : Option CursorDoc
  hasStages : Bool
deriving Repr, DecidableEq

/-- An exception escaping the command: `user c` models `uasserted`/`uassert`
with code `c`, `fatal c` models `massert` with code `c`, and `typeFault`
models a BSON extraction throwing on a missing or mistyped field. -/
inductive AggError where
  | user (code : Int)
  | fatal (code : Int)
  | typeFault
deriving Repr, DecidableEq

/-- A cursor handle as accumulated by `parseCursors`: the exact host together
with the cursor id (`DocumentSourceMergeCursors::CursorIds` entries). -/
abbrev CursorHandle := String × Int

/-- Modelled from the spec: `getUniqueCodeFromCommandResults` (declared in
`cluster_commands_common.h`, its body is not part of the sources here).  The
spec describes it as computing the common error code when all shard failures
share one, and `0` otherwise, the caller substituting the generic
multiple-failures code for `0`. -/
def getUniqueCodeFromCommandResults (shardResults : List ShardResult) : Int :=
  match (shardResults.filter fun r => r.ok = false).map (fun r => r.code) with
  | [] => 0
  | c :: rest => if rest.all fun x => x = c then c else 0

/-- The error code surfaced for a failed shard command: the unique code shared
by all failures when there is one, and the generic code 17022 otherwise.  This
mirrors the `errCode == 0 -> 17022` substitution inside `parseCursors`. -/
def representativeErrorCode (shardResults : List ShardResult) : Int :=
  let u := getUniqueCodeFromCommandResults shardResults
  if u = 0 then 17022 else u

/-- The loop body of `PipelineCommand::parseCursors`, iterating over the shard
results while carrying the full result list `all` (used for the unique error
code).  In order: a non-ok result raises the representative code as a user
error (`uasserted`); then `result["cursor"].Obj()` is read (throwing on a
missing field); then `massert 17023` requires an empty first batch,
`massert 17024` a nonzero cursor id, and `massert 17025` the expected
namespace; a clean result contributes its `(host, cursorId)` handle. -/
def parseCursorsLoop (all : List ShardResult) (fullns : String) :
    List ShardResult → Except AggError (List CursorHandle)
  | [] => .ok []
  | r :: rest =>
    if r.ok = false then
      .error (.user (representativeErrorCode all))
    else
      match r.cursor with
      | none => .error .typeFault
      | some c =>
        match c.firstBatchEmpty with
        | none => .error .typeFault
        | some isEmpty =>
          if isEmpty = false then .error (.fatal 17023)
          else
            match c.id with
            | none => .error .typeFault
            | some cursorId =>
              if cursorId = 0 then .error (.fatal 17024)
              else
                match c.ns with
                | none => .error .typeFault
                | some ns =>
                  if ns ≠ fullns then .error (.fatal 17025)
                  else
                    match parseCursorsLoop all fullns rest with
                    | .ok cs => .ok ((r.host, cursorId) :: cs)
                    | .error e => .error e

/-- One iteration of `PipelineCommand::killAllCursors`: a not-ok result is
skipped; reading `result["cursor"]["id"].Long()` on a reply without a
well-typed cursor id throws, which the loop swallows (so that result is
skipped); a zero id is skipped; otherwise the `(host, id)` cursor is killed. -/
def killOneCursor (r : ShardResult) : Option CursorHandle :=
  if r.ok = false then none
  else
    match r.cursor with
    | none => none
    | some c =>
      match c.id with
      | none => none
      | some cursorId => if cursorId = 0 then none else some (r.host, cursorId)

/-- `PipelineCommand::killAllCursors`: best-effort kill over every shard
result, swallowing all per-connection failures.  The returned list is the set
of cursors actually killed. -/
def killAllCursors (shardResults : List ShardResult) : List CursorHandle :=
  shardResults.filterMap killOneCursor

/-- Following the spec text, independently of `killAllCursors`: a cursor is
open on a shard exactly when the shard result is ok and reports a nonzero
cursor id in its reply. -/
def openCursorsSpec (shardResults : List ShardResult) : List CursorHandle :=
  ((shardResults.filter fun r =>
      r.ok = true ∧ ∃ i, (r.cursor.bind CursorDoc.id) = some i ∧ i ≠ 0).map
    fun r => (r.host, (r.cursor.bind CursorDoc.id).getD 0))

/-- `PipelineCommand::parseCursors`: runs the validation loop inside a
`try`/`catch (...)` block; on any exception it kills all cursors before
rethrowing.  The first component is the outcome (the cursor handles, or the
escaping exception) and the second component is the list of cursors killed on
the way out (empty on success: success hands the handles to the merge step). -/
def parseCursors (shardResults : List ShardResult) (fullns : String) :
    Except AggError (List CursorHandle) × List CursorHandle :=
  match parseCursorsLoop shardResults fullns shardResults with
  | .ok cs => (.ok cs, [])
  | .error e => (.error e, killAllCursors shardResults)

/-- The cursor handles open on the shards after a kill pass: those open per
the spec-side definition and not among the killed ones. -/
def remainingOpen (shardResults : List ShardResult) (killed : List CursorHandle) :
    List CursorHandle :=
  (openCursorsSpec shardResults).filter fun h => ¬ (h ∈ killed)

lemma killOneCursor_eq_some_iff (r : ShardResult) (h : CursorHandle) :
    killOneCursor r = some h ↔
      r.ok = true ∧ ∃ i, r.cursor.bind CursorDoc.id = some i ∧ i ≠ 0 ∧ h = (r.host, i) := by
  unfold killOneCursor
  rcases hok : r.ok with _ | _
  · simp [hok]
  · rcases hc : r.cursor with _ | c
    · simp [hok, hc]
    · rcases hcid : c.id with _ | i
      · simp [hok, hc, hcid]
      · by_cases hi0 : i = 0
        · simp [hok, hc, hcid, hi0]
        · simp [hok, hc, hcid, hi0]
          exact eq_comm

lemma mem_killAllCursors_iff (shardResults : List ShardResult) (h : CursorHandle) :
    h ∈ killAllCursors shardResults ↔
      ∃ r ∈ shardResults, r.ok = true ∧
        ∃ i, r.cursor.bind CursorDoc.id = some i ∧ i ≠ 0 ∧ h = (r.host, i) := by
  unfold killAllCursors
  rw [List.mem_filterMap]
  constructor
  · rintro ⟨r, hr, hsome⟩
    exact ⟨r, hr, (killOneCursor_eq_some_iff r h).mp hsome⟩
  · rintro ⟨r, hr, hcond⟩
    exact ⟨r, hr, (killOneCursor_eq_some_iff r h).mpr hcond⟩

lemma mem_openCursorsSpec_iff (shardResults : List ShardResult) (h : CursorHandle) :
    h ∈ openCursorsSpec shardResults ↔
      ∃ r ∈ shardResults, r.ok = true ∧
        ∃ i, r.cursor.bind CursorDoc.id = some i ∧ i ≠ 0 ∧ h = (r.host, i) := by
  unfold openCursorsSpec
  rw [List.mem_map]
  constructor
  · rintro ⟨r, hr, hh⟩
    rw [List.mem_filter] at hr
    obtain ⟨hmem, hcond⟩ := hr
    rw [decide_eq_true_eq] at hcond
    obtain ⟨hok, i, hid, hi0⟩ := hcond
    exact ⟨r, hmem, hok, i, hid, hi0, by rw [← hh, hid]; rfl⟩
  · rintro ⟨r, hr, hok, i, hid, hi0, hh⟩
    refine ⟨r, ?_, ?_⟩
    · rw [List.mem_filter]
      exact ⟨hr, by rw [decide_eq_true_eq]; exact ⟨hok, i, hid, hi0⟩⟩
    · rw [hid]
      simpa using hh.symm

lemma remainingOpen_killAllCursors (shardResults : List ShardResult) :
    remainingOpen shardResults (killAllCursors shardResults) = [] := by
  unfold remainingOpen
  rw [List.filter_eq_nil_iff]
  intro h hmem
  simp only [decide_eq_true_eq, not_not]
  rw [mem_killAllCursors_iff]
  exact (mem_openCursorsSpec_iff shardResults h).mp hmem

/-- C1: in cursor mode, whenever cursor validation (`parseCursors`) exits with
any exception — a not-ok shard result, a protocol-contract `massert`, or a
BSON extraction fault — the `catch (...)` block kills every cursor that was
opened on a succeeding shard, so no cursor handle remains open when the error
propagates. -/
theorem parseCursors_error_leaves_no_cursor_open
    (shardResults : List ShardResult) (fullns : String) (e : AggError)
    (herr : (parseCursors shardResults fullns).1 = .error e) :
    remainingOpen shardResults (parseCursors shardResults fullns).2 = [] := by
  unfold parseCursors at herr ⊢
  rcases hloop : parseCursorsLoop shardResults fullns shardResults with e₀ | cs
  · simp only [hloop]
    exact remainingOpen_killAllCursors shardResults
  · rw [hloop] at herr
    simp at herr

/-- Witness for C1 at a concrete input: one shard succeeded with cursor 7 and
one failed, so validation raises the failing code 42 and the kill pass leaves
no cursor open. -/
theorem parseCursors_error_leaves_no_cursor_open_witness :
    remainingOpen
      [{ shardName := "s1", host := "h1:27017", ok := true, code := 0, errmsg := "",
         cursor := some { firstBatchEmpty := some true, id := some 7, ns := some "a.b" },
         hasStages := false },
       { shardName := "s2", host := "h2:27017", ok := false, code := 42,
         errmsg := "boom", cursor := none, hasStages := false }]
      (parseCursors
        [{ shardName := "s1", host := "h1:27017", ok := true, code := 0, errmsg := "",
           cursor := some { firstBatchEmpty := some true, id := some 7, ns := some "a.b" },
           hasStages := false },
         { shardName := "s2", host := "h2:27017", ok := false, code := 42,
           errmsg := "boom", cursor := none, hasStages := false }] "a.b").2 = [] :=
  parseCursors_error_leaves_no_cursor_open _ "a.b" (.user 42) (by rfl)

/-- A shard result passes the per-shard cursor validation of `parseCursors`:
its reply carries a cursor document whose first batch is empty, whose id is a
nonzero long, and whose namespace equals the target namespace. -/
def shardValidates (fullns : String) (r : ShardResult) : Bool :=
  match r.cursor with
  | none => false
  | some c =>
    match c.firstBatchEmpty, c.id, c.ns with
    | some true, some i, some ns => decide (i ≠ 0) && decide (ns = fullns)
    | _, _, _ => false

lemma parseCursorsLoop_cons_validated (all rest : List ShardResult) (fullns : String)
    (r : ShardResult) (hok : r.ok = true) (hval : shardValidates fullns r = true) :
    ∃ i, r.cursor.bind CursorDoc.id = some i ∧
      parseCursorsLoop all fullns (r :: rest) =
        match parseCursorsLoop all fullns rest with
        | .ok cs => .ok ((r.host, i) :: cs)
        | .error e => .error e := by
  unfold shardValidates at hval
  rcases hc : r.cursor with _ | c
  · simp [hc] at hval
  · simp only [hc] at hval
    rcases hfb : c.firstBatchEmpty with _ | b
    · simp [hfb] at hval
    · rcases b with _ | _
      · simp [hfb] at hval
      · rcases hid : c.id with _ | i
        · simp [hfb, hid] at hval
        · rcases hns : c.ns with _ | s
          · simp [hfb, hid, hns] at hval
          · simp only [hfb, hid, hns, Bool.and_eq_true, decide_eq_true_eq] at hval
            obtain ⟨hi0, hseq⟩ := hval
            refine ⟨i, by simp [hc, hid], ?_⟩
            simp [parseCursorsLoop, hok, hc, hfb, hid, hns, hi0, hseq]

lemma parseCursorsLoop_error_append (all pre rest : List ShardResult) (fullns : String)
    (hpre : ∀ p ∈ pre, p.ok = true ∧ shardValidates fullns p = true) (e : AggError) :
    parseCursorsLoop all fullns (pre ++ rest) = .error e ↔
      parseCursorsLoop all fullns rest = .error e := by
  induction pre with
  | nil => simp
  | cons p pre ih =>
    obtain ⟨hok, hval⟩ := hpre p (List.mem_cons_self p pre)
    obtain ⟨i, -, hstep⟩ :=
      parseCursorsLoop_cons_validated all (pre ++ rest) fullns p hok hval
    rw [List.cons_append, hstep]
    rw [← ih fun q hq => hpre q (List.mem_cons_of_mem p hq)]
    rcases hrec : parseCursorsLoop all fullns (pre ++ rest) with e₀ | cs <;> simp

/-- C4: for every succeeding shard reached by the validation loop (all results
before it passing validation), the router asserts the protocol contract on the
returned cursor: a non-empty first batch fails `massert 17023`, a zero cursor
id fails `massert 17024`, and a namespace different from the target namespace
fails `massert 17025` — each a fatal assertion (`AggError.fatal`), not an
ordinary user-facing error. -/
theorem parseCursors_protocol_contract_asserts (pre post : List ShardResult)
    (r : ShardResult) (fullns : String) (c : CursorDoc)
    (hpre : ∀ p ∈ pre, p.ok = true ∧ shardValidates fullns p = true)
    (hok : r.ok = true) (hc : r.cursor = some c) :
    (c.firstBatchEmpty = some false →
      (parseCursors (pre ++ r :: post) fullns).1 = .error (.fatal 17023)) ∧
    (c.firstBatchEmpty = some true → c.id = some 0 →
      (parseCursors (pre ++ r :: post) fullns).1 = .error (.fatal 17024)) ∧
    (∀ i s, c.firstBatchEmpty = some true → c.id = some i → i ≠ 0 →
      c.ns = some s → s ≠ fullns →
      (parseCursors (pre ++ r :: post) fullns).1 = .error (.fatal 17025)) := by
  have key : ∀ e : AggError,
      parseCursorsLoop (pre ++ r :: post) fullns (r :: post) = .error e →
      (parseCursors (pre ++ r :: post) fullns).1 = .error e := by
    intro e he
    unfold parseCursors
    rw [(parseCursorsLoop_error_append (pre ++ r :: post) pre (r :: post) fullns hpre
      e).mpr he]
  refine ⟨?_, ?_, ?_⟩
  · intro hfb
    exact key _ (by simp [parseCursorsLoop, hok, hc, hfb])
  · intro hfb hid
    exact key _ (by simp [parseCursorsLoop, hok, hc, hfb, hid])
  · intro i s hfb hid hi0 hns hs
    exact key _ (by simp [parseCursorsLoop, hok, hc, hfb, hid, hi0, hns, hs])

/-- Witness for C4 at a concrete input: a shard replying ok with cursor id 0
(after one clean shard) trips the fatal assertion 17024. -/
theorem parseCursors_protocol_contract_asserts_witness :
    (parseCursors
      [{ shardName := "s1", host := "h1:27017", ok := true, code := 0, errmsg := "",
         cursor := some { firstBatchEmpty := some true, id := some 7, ns := some "a.b" },
         hasStages := false },
       { shardName := "s2", host := "h2:27017", ok := true, code := 0, errmsg := "",
         cursor := some { firstBatchEmpty := some true, id := some 0, ns := some "a.b" },
         hasStages := false }] "a.b").1 = .error (.fatal 17024) :=
  (parseCursors_protocol_contract_asserts
    [{ shardName := "s1", host := "h1:27017", ok := true, code := 0, errmsg := "",
       cursor := some { firstBatchEmpty := some true, id := some 7, ns := some "a.b" },
       hasStages := false }] []
    { shardName := "s2", host := "h2:27017", ok := true, code := 0, errmsg := "",
      cursor := some { firstBatchEmpty := some true, id := some 0, ns := some "a.b" },
      hasStages := false } "a.b"
    { firstBatchEmpty := some true, id := some 0, ns := some "a.b" }
    (by intro p hp
        simp only [List.mem_singleton] at hp
        subst hp
        exact ⟨rfl, rfl⟩)
    rfl rfl).2.1 rfl rfl

/-- The fields of the client command document (`cmdObj`) that `run` reads
besides the pipeline itself: the raw `$queryOptions` value, the raw `cursor`
value, and the raw maxTimeMS value, each present or absent. -/
structure ClientCmd where
  queryOptions : Option String
  cursor : Option String
  maxTimeMS : Option Int
deriving Repr, DecidableEq

/-- The two properties of the parsed pipeline that steer `run`:
`Pipeline::isExplain` and `Pipeline::canRunInMongos` (the latter queried by
`uassertCanMergeInMongos`). -/
structure PipelineInfo where
  isExplain : Bool
  canRunInMongos : Bool
deriving Repr, DecidableEq

/-- A command document sent to the shards, as assembled by `run` (normal path)
or `noCursorFallback`: the serialized shard pipeline plus the `fromRouter`
flag, the forwarded `$queryOptions`, an optional `cursor : \x7bbatchSize\x7d`
field, and an optional forwarded maxTimeMS. -/
structure ShardCmd where
  fromRouter : Bool
  queryOptions : Option String
  cursorBatchSize : Option Int
  maxTimeMS : Option Int
deriving Repr, DecidableEq

/-- The merge command sent to the primary shard: the merge pipeline prefixed
with a `$mergeCursors` source holding the validated cursor handles, plus the
client cursor, `$queryOptions` and maxTimeMS values forwarded verbatim. -/
structure MergeCmd where
  mergeCursors : List CursorHandle
  cursor : Option String
  queryOptions : Option String
  maxTimeMS : Option Int
deriving Repr, DecidableEq

/-- The fields read from a single-host command reply (the merge host or the
passthrough primary): `ok`, `code` and `errmsg`. -/
structure HostResult where
  ok : Bool
  code : Int
  errmsg : String
deriving Repr, DecidableEq

/-- The behavior of all collaborators during one execution of `run`: whether
`Pipeline::parseCommand` succeeds, whether the catalog cache finds the
database, the sharding state of the namespace, the replies of the scatter
dispatch (and of the re-dispatch of `noCursorFallback`), and the replies of
the merge host and of the passthrough primary. -/
structure Env where
  parseOk : Bool
  dbFound : Bool
  shardingEnabled : Bool
  collSharded : Bool
  shardResults : List ShardResult
  fallbackResults : List ShardResult
  mergeResult : HostResult
  passthroughResult : HostResult
deriving Repr, DecidableEq

/-- The observable effects of one execution of `run`: every command document
dispatched to the shards in order, the merge command dispatched to the primary
(if any), how many passthrough calls were made, the cursors killed, and
whether the merge pipeline was executed locally on the router. -/
structure Trace where
  shardDispatches : List ShardCmd
  mergeDispatched : Option MergeCmd
  passthroughCalls : Nat
  killed : List CursorHandle
  localMergeRun : Bool
deriving Repr, DecidableEq

def emptyTrace : Trace :=
  { shardDispatches := [], mergeDispatched := none, passthroughCalls := 0,
    killed := [], localMergeRun := false }

/-- The result of one execution of `run`: parse failure (plain `return false`),
the empty result set for a missing database, a passthrough reply, the
stale-config exception, an explain document (shard name and host per shard,
paired with the split pipeline), the merge host reply forwarded verbatim, a
local merge over the shard cursors, a local merge over the raw per-shard
fallback replies, or an escaping exception. -/
inductive Outcome where
  | parseFailed
  | emptyResultSet (ns : String)
  | passthrough (ok : Bool) (r : HostResult)
  | staleConfigRetryable (r : HostResult)
  | explainOutput (shards : List (String × String))
  | mergedVerbatim (ok : Bool) (r : HostResult)
  | localMergeCursors (handles : List CursorHandle)
  | localMergeResults (raws : List ShardResult)
  | raised (e : AggError)
deriving Repr, DecidableEq

/-- The exact errmsg a pre-2.6 shard returns when the `cursor` field of the
aggregate command is unrecognized (note the unbalanced quote, faithfully). -/
def unrecognizedCursorFieldMsg : String := "unrecognized field \"cursor"

def singleQuote : String := String.singleton (Char.ofNat 39)

/-- The exact errmsg a pre-2.6 primary returns when the `$mergeCursors` stage
is unrecognized. -/
def mergeCursorsUnrecognizedMsg : String :=
  "exception: Unrecognized pipeline stage name: " ++ singleQuote ++ "$mergeCursors"
    ++ singleQuote

/-- `PipelineCommand::doAnyShardsNotSupportCursors`: true when any shard reply
carries the legacy unrecognized-cursor errmsg. -/
def doAnyShardsNotSupportCursors (shardResults : List ShardResult) : Bool :=
  shardResults.any fun r => r.errmsg == unrecognizedCursorFieldMsg

/-- `PipelineCommand::wasMergeCursorsSupported`: false exactly when the merge
reply carries the legacy unrecognized-$mergeCursors errmsg. -/
def wasMergeCursorsSupported (cmdResult : HostResult) : Bool :=
  cmdResult.errmsg != mergeCursorsUnrecognizedMsg

/-- `PipelineCommand::uassertCanMergeInMongos`: `uassert 17020` that the
client did not ask for a cursor-returning response, then `uassert 17021` that
the merge pipeline can run inside mongos. -/
def uassertCanMergeInMongos (mergePipeline : PipelineInfo) (cmdObj : ClientCmd) :
    Except AggError Unit :=
  if cmdObj.cursor.isSome then .error (.user 17020)
  else if mergePipeline.canRunInMongos = false then .error (.user 17021)
  else .ok ()

/-- `PipelineCommand::uassertAllShardsSupportExplain`: for each shard reply in
order, `uassert 17403` that it is ok and `uassert 17404` that it has a
`stages` field. -/
def uassertAllShardsSupportExplain :
    List ShardResult → Except AggError Unit
  | [] => .ok ()
  | r :: rest =>
    if r.ok = false then .error (.user 17403)
    else if r.hasStages = false then .error (.user 17404)
    else uassertAllShardsSupportExplain rest

/-- The shard command built by `run`: serialized shard pipeline with
`fromRouter:true`, `$queryOptions` forwarded if present, a
`cursor:\x7bbatchSize:0\x7d` field unless the pipeline is an explain, and
maxTimeMS forwarded if present. -/
def buildShardCmd (cmdObj : ClientCmd) (isExplain : Bool) : ShardCmd :=
  { fromRouter := true
    queryOptions := cmdObj.queryOptions
    cursorBatchSize := if isExplain then none else some 0
    maxTimeMS := cmdObj.maxTimeMS }

/-- The shard command built by `noCursorFallback`: serialized shard pipeline
with `fromRouter:true` and `$queryOptions` forwarded if present — no `cursor`
field and no maxTimeMS. -/
def buildFallbackShardCmd (cmdObj : ClientCmd) : ShardCmd :=
  { fromRouter := true
    queryOptions := cmdObj.queryOptions
    cursorBatchSize := none
    maxTimeMS := none }

/-- The merge command built by `run`: the merge pipeline with the
`$mergeCursors` initial source over the validated handles, and the client
`cursor`, `$queryOptions` and maxTimeMS values forwarded verbatim if
present. -/
def buildMergeCmd (cmdObj : ClientCmd) (handles : List CursorHandle) : MergeCmd :=
  { mergeCursors := handles
    cursor := cmdObj.cursor
    queryOptions := cmdObj.queryOptions
    maxTimeMS := cmdObj.maxTimeMS }

/-- `SendStaleConfigCode` from `stale_exception.h` (value as declared there;
only its identity matters here). -/
def SendStaleConfigCode : Int := 13388

/-- Modelled from the spec: `appendEmptyResultSet` (declared in
`mongo/db/commands.h`, its body is not part of the sources here).  Builds a
success-shaped reply for the namespace — an ok result whose cursor has id 0
and an empty first batch — and reports command success. -/
def appendEmptyResultSet (ns : String) : Outcome := .emptyResultSet ns

/-- `PipelineCommand::noCursorFallback`: first `uassertCanMergeInMongos`, then
re-dispatch the shard pipeline without a `cursor` field, feed the raw shard
replies into the merge pipeline as a `DocumentSourceCommandShards` source, and
run it locally.  Returns the extra shard dispatches, whether the local merge
ran, and the outcome. -/
def noCursorFallback (mergePipeline : PipelineInfo) (cmdObj : ClientCmd)
    (env : Env) : List ShardCmd × Bool × Outcome :=
  match uassertCanMergeInMongos mergePipeline cmdObj with
  | .error e => ([], false, .raised e)
  | .ok _ =>
    ([buildFallbackShardCmd cmdObj], true, .localMergeResults env.fallbackResults)

/-- `PipelineCommand::aggPassthrough`: run the whole command on the primary
shard; when the reply is not ok and carries `SendStaleConfigCode`, throw the
stale-config exception (retryable by the caller); otherwise append the reply
verbatim and return its ok value. -/
def aggPassthrough (env : Env) : Trace × Outcome :=
  let r := env.passthroughResult
  let tr := { emptyTrace with passthroughCalls := 1 }
  if r.ok = false ∧ r.code = SendStaleConfigCode then (tr, .staleConfigRetryable r)
  else (tr, .passthrough r.ok r)

/-- `PipelineCommand::run`, on an environment fixing the collaborator
behavior: parse the pipeline, look the database up, pass through when the
namespace is not sharded, dispatch the shard command, then branch on explain,
on the legacy no-cursor fallback, on cursor validation, and on the merge
reply. -/
def run (env : Env) (cmdObj : ClientCmd) (pipeline : PipelineInfo)
    (fullns : String) : Trace × Outcome :=
  if env.parseOk = false then (emptyTrace, .parseFailed)
  else if env.dbFound = false then (emptyTrace, appendEmptyResultSet fullns)
  else if (env.shardingEnabled && env.collSharded) = false then aggPassthrough env
  else
    let shardCmd := buildShardCmd cmdObj pipeline.isExplain
    let rs := env.shardResults
    let tr := { emptyTrace with shardDispatches := [shardCmd] }
    if pipeline.isExplain then
      match uassertAllShardsSupportExplain rs with
      | .error e => (tr, .raised e)
      | .ok _ => (tr, .explainOutput (rs.map fun r => (r.shardName, r.host)))
    else if doAnyShardsNotSupportCursors rs then
      let killed := killAllCursors rs
      match noCursorFallback pipeline cmdObj env with
      | (extra, ranLocal, outcome) =>
        ({ tr with shardDispatches := shardCmd :: extra, killed := killed,
                   localMergeRun := ranLocal }, outcome)
    else
      match parseCursors rs fullns with
      | (.error e, killed) => ({ tr with killed := killed }, .raised e)
      | (.ok handles, _) =>
        let mergeCmd := buildMergeCmd cmdObj handles
        let mr := env.mergeResult
        let tr := { tr with mergeDispatched := some mergeCmd }
        if mr.ok = false ∧ wasMergeCursorsSupported mr = false then
          match uassertCanMergeInMongos pipeline cmdObj with
          | .error e => (tr, .raised e)
          | .ok _ => ({ tr with localMergeRun := true }, .localMergeCursors handles)
        else
          (tr, .mergedVerbatim mr.ok mr)

lemma doAnyShardsNotSupportCursors_of_mem (shardResults : List ShardResult)
    (r : ShardResult) (hr : r ∈ shardResults)
    (hmsg : r.errmsg = unrecognizedCursorFieldMsg) :
    doAnyShardsNotSupportCursors shardResults = true := by
  unfold doAnyShardsNotSupportCursors
  rw [List.any_eq_true]
  exact ⟨r, hr, by simp [hmsg]⟩

/-- C10: when the catalog-cache database lookup fails, `run` returns the
success-shaped empty result set for the namespace (via `appendEmptyResultSet`)
without dispatching any command to any shard, without any merge or
passthrough call, and without opening or killing any cursor. -/
theorem run_missing_database_empty_result (env : Env) (cmdObj : ClientCmd)
    (pipeline : PipelineInfo) (fullns : String)
    (hparse : env.parseOk = true) (hdb : env.dbFound = false) :
    run env cmdObj pipeline fullns = (emptyTrace, appendEmptyResultSet fullns) ∧
    appendEmptyResultSet fullns = .emptyResultSet fullns := by
  constructor
  · unfold run
    rw [hparse, hdb]
    simp
  · rfl

/-- Witness for C10 at a concrete input. -/
theorem run_missing_database_empty_result_witness :
    run { parseOk := true, dbFound := false, shardingEnabled := true,
          collSharded := true, shardResults := [], fallbackResults := [],
          mergeResult := { ok := true, code := 0, errmsg := "" },
          passthroughResult := { ok := true, code := 0, errmsg := "" } }
        { queryOptions := none, cursor := none, maxTimeMS := none }
        { isExplain := false, canRunInMongos := true } "a.b"
      = (emptyTrace, appendEmptyResultSet "a.b") ∧
    appendEmptyResultSet "a.b" = .emptyResultSet "a.b" :=
  run_missing_database_empty_result _ _ _ "a.b" rfl rfl

/-- C9: on the passthrough path, when the primary reply is not ok and carries
`SendStaleConfigCode`, `run` surfaces the distinct retryable stale-config
exception after exactly one remote call: no shard dispatch, no merge dispatch,
no cursor activity, and no internal retry. -/
theorem run_stale_config_retryable (env : Env) (cmdObj : ClientCmd)
    (pipeline : PipelineInfo) (fullns : String)
    (hparse : env.parseOk = true) (hdb : env.dbFound = true)
    (hunsharded : (env.shardingEnabled && env.collSharded) = false)
    (hok : env.passthroughResult.ok = false)
    (hcode : env.passthroughResult.code = SendStaleConfigCode) :
    run env cmdObj pipeline fullns =
      ({ emptyTrace with passthroughCalls := 1 },
       .staleConfigRetryable env.passthroughResult) := by
  unfold run
  rw [hparse, hdb, hunsharded]
  simp only [Bool.true_eq_false, if_false, if_true]
  unfold aggPassthrough
  rw [if_pos ⟨hok, hcode⟩]

/-- Witness for C9 at a concrete input. -/
theorem run_stale_config_retryable_witness :
    run { parseOk := true, dbFound := true, shardingEnabled := true,
          collSharded := false, shardResults := [], fallbackResults := [],
          mergeResult := { ok := true, code := 0, errmsg := "" },
          passthroughResult := { ok := false, code := 13388, errmsg := "stale" } }
        { queryOptions := none, cursor := none, maxTimeMS := none }
        { isExplain := false, canRunInMongos := true } "a.b"
      = ({ emptyTrace with passthroughCalls := 1 },
         .staleConfigRetryable { ok := false, code := 13388, errmsg := "stale" }) :=
  run_stale_config_retryable _ _ _ "a.b" rfl rfl rfl rfl rfl

/-- Concrete shard reply fixtures used by the witnesses below. -/
def sampleCursorShard : ShardResult :=
  { shardName := "s1", host := "h1:27017", ok := true, code := 0, errmsg := "",
    cursor := some { firstBatchEmpty := some true, id := some 7, ns := some "a.b" },
    hasStages := false }

def sampleLegacyShard : ShardResult :=
  { shardName := "s2", host := "h2:27017", ok := false, code := 0,
    errmsg := unrecognizedCursorFieldMsg, cursor := none, hasStages := false }

def sampleRawResult : ShardResult :=
  { shardName := "s1", host := "h1:27017", ok := true, code := 0, errmsg := "",
    cursor := none, hasStages := false }

def sampleOkHost : HostResult := { ok := true, code := 0, errmsg := "" }

def sampleEnvBase : Env :=
  { parseOk := true, dbFound := true, shardingEnabled := true, collSharded := true,
    shardResults := [sampleCursorShard], fallbackResults := [],
    mergeResult := sampleOkHost, passthroughResult := sampleOkHost }

def samplePlainCmd : ClientCmd := { queryOptions := none, cursor := none, maxTimeMS := none }

def sampleCursorCmd : ClientCmd :=
  { queryOptions := none, cursor := some "x", maxTimeMS := none }

def samplePipe : PipelineInfo := { isExplain := false, canRunInMongos := true }

/-- C3 (amended): one shard signaling the legacy unrecognized-cursor errmsg
forces fallback mode for the whole operation — provided the client did not ask
for a cursor-returning response and the merge pipeline can run on the router:
every opened cursor is killed (none remains open), the shard command is
re-dispatched without its `cursor` field, the merge command is never
dispatched, and the merge pipeline runs locally over the raw per-shard
replies. -/
theorem run_legacy_shard_forces_fallback (env : Env) (cmdObj : ClientCmd)
    (pipeline : PipelineInfo) (fullns : String) (r : ShardResult)
    (hparse : env.parseOk = true) (hdb : env.dbFound = true)
    (hsharded : (env.shardingEnabled && env.collSharded) = true)
    (hexplain : pipeline.isExplain = false)
    (hr : r ∈ env.shardResults) (hmsg : r.errmsg = unrecognizedCursorFieldMsg)
    (hnocur : cmdObj.cursor = none) (hmongos : pipeline.canRunInMongos = true) :
    run env cmdObj pipeline fullns =
      ({ shardDispatches := [buildShardCmd cmdObj false, buildFallbackShardCmd cmdObj],
         mergeDispatched := none, passthroughCalls := 0,
         killed := killAllCursors env.shardResults, localMergeRun := true },
       .localMergeResults env.fallbackResults) ∧
    (buildFallbackShardCmd cmdObj).cursorBatchSize = none ∧
    remainingOpen env.shardResults (killAllCursors env.shardResults) = [] := by
  have hany := doAnyShardsNotSupportCursors_of_mem env.shardResults r hr hmsg
  refine ⟨?_, rfl, remainingOpen_killAllCursors env.shardResults⟩
  unfold run noCursorFallback uassertCanMergeInMongos
  rw [hparse, hdb, hsharded, hexplain, hnocur, hmongos]
  simp [hany, emptyTrace]

/-- Witness for C3 at a concrete input: one conforming shard with an open
cursor plus one legacy shard; the opened cursor is killed, the re-dispatch
omits the cursor field, and the raw fallback replies feed the local merge. -/
theorem run_legacy_shard_forces_fallback_witness :
    run { sampleEnvBase with
          shardResults := [sampleCursorShard, sampleLegacyShard],
          fallbackResults := [sampleRawResult] }
        samplePlainCmd samplePipe "a.b"
      = ({ shardDispatches :=
             [buildShardCmd samplePlainCmd false, buildFallbackShardCmd samplePlainCmd],
           mergeDispatched := none, passthroughCalls := 0,
           killed := [("h1:27017", 7)], localMergeRun := true },
         .localMergeResults [sampleRawResult]) := by
  exact (run_legacy_shard_forces_fallback
    { sampleEnvBase with
      shardResults := [sampleCursorShard, sampleLegacyShard],
      fallbackResults := [sampleRawResult] }
    samplePlainCmd samplePipe "a.b" sampleLegacyShard rfl rfl rfl rfl
    (List.mem_cons_of_mem _ (List.mem_cons_self _ _)) rfl rfl rfl).1

/-- C3 counterexample: with the same legacy-shard signal but a client command
that carries a `cursor` field, the operation kills the opened cursor and then
raises `uassert 17020` — it does not re-dispatch and does not merge locally,
so the claim as stated (unconditional re-dispatch and local merge) is false. -/
theorem run_legacy_shard_forces_fallback_counterexample :
    (run { sampleEnvBase with shardResults := [sampleCursorShard, sampleLegacyShard] }
        sampleCursorCmd samplePipe "a.b").2 = .raised (.user 17020) ∧
    (run { sampleEnvBase with shardResults := [sampleCursorShard, sampleLegacyShard] }
        sampleCursorCmd samplePipe "a.b").1.localMergeRun = false ∧
    (run { sampleEnvBase with shardResults := [sampleCursorShard, sampleLegacyShard] }
        sampleCursorCmd samplePipe "a.b").1.shardDispatches.length = 1 :=
  ⟨rfl, rfl, rfl⟩

def sampleFailShard : ShardResult :=
  { shardName := "s3", host := "h3:27017", ok := false, code := 42, errmsg := "boom",
    cursor := none, hasStages := false }

def sampleFailShard2 : ShardResult :=
  { shardName := "s4", host := "h4:27017", ok := false, code := 42, errmsg := "boom2",
    cursor := none, hasStages := false }

def sampleBadBatchShard : ShardResult :=
  { shardName := "s5", host := "h5:27017", ok := true, code := 0, errmsg := "",
    cursor := some { firstBatchEmpty := some false, id := some 5, ns := some "a.b" },
    hasStages := false }

def sampleMaxTimeCmd : ClientCmd :=
  { queryOptions := some "q", cursor := none, maxTimeMS := some 100 }

lemma parseCursors_ok_snd (shardResults : List ShardResult) (fullns : String)
    (handles : List CursorHandle)
    (h : (parseCursors shardResults fullns).1 = .ok handles) :
    parseCursors shardResults fullns = (.ok handles, []) := by
  unfold parseCursors at h ⊢
  rcases hloop : parseCursorsLoop shardResults fullns shardResults with e | cs
  · rw [hloop] at h; simp at h
  · rw [hloop] at h
    simp only [Except.ok.injEq] at h
    rw [h]

lemma uassertCanMergeInMongos_cursorRequested (pipeline : PipelineInfo)
    (cmdObj : ClientCmd) (h : cmdObj.cursor.isSome = true) :
    uassertCanMergeInMongos pipeline cmdObj = .error (.user 17020) := by
  simp [uassertCanMergeInMongos, h]

lemma uassertCanMergeInMongos_cannotRun (pipeline : PipelineInfo)
    (cmdObj : ClientCmd) (h1 : cmdObj.cursor = none)
    (h2 : pipeline.canRunInMongos = false) :
    uassertCanMergeInMongos pipeline cmdObj = .error (.user 17021) := by
  simp [uassertCanMergeInMongos, h1, h2]

lemma uassertCanMergeInMongos_passes (pipeline : PipelineInfo)
    (cmdObj : ClientCmd) (h1 : cmdObj.cursor = none)
    (h2 : pipeline.canRunInMongos = true) :
    uassertCanMergeInMongos pipeline cmdObj = .ok () := by
  simp [uassertCanMergeInMongos, h1, h2]

lemma run_fallback_branch_raises (env : Env) (cmdObj : ClientCmd)
    (pipeline : PipelineInfo) (fullns : String) (e : AggError)
    (hparse : env.parseOk = true) (hdb : env.dbFound = true)
    (hsharded : (env.shardingEnabled && env.collSharded) = true)
    (hexplain : pipeline.isExplain = false)
    (hany : doAnyShardsNotSupportCursors env.shardResults = true)
    (hu : uassertCanMergeInMongos pipeline cmdObj = .error e) :
    (run env cmdObj pipeline fullns).2 = .raised e := by
  unfold run noCursorFallback
  rw [hparse, hdb, hsharded, hexplain, hu]
  simp [hany]

lemma run_merge_branch_raises (env : Env) (cmdObj : ClientCmd)
    (pipeline : PipelineInfo) (fullns : String) (handles : List CursorHandle)
    (e : AggError)
    (hparse : env.parseOk = true) (hdb : env.dbFound = true)
    (hsharded : (env.shardingEnabled && env.collSharded) = true)
    (hexplain : pipeline.isExplain = false)
    (hnoany : doAnyShardsNotSupportCursors env.shardResults = false)
    (hpc : (parseCursors env.shardResults fullns).1 = .ok handles)
    (hok : env.mergeResult.ok = false)
    (hwms : wasMergeCursorsSupported env.mergeResult = false)
    (hu : uassertCanMergeInMongos pipeline cmdObj = .error e) :
    (run env cmdObj pipeline fullns).2 = .raised e := by
  have hpc2 := parseCursors_ok_snd env.shardResults fullns handles hpc
  unfold run
  rw [hparse, hdb, hsharded, hexplain]
  simp [hnoany, hpc2, hu, emptyTrace]
  rw [if_pos ⟨hok, hwms⟩]

/-- C2 (amended): if a shard result has ok false and every ok result before
the first failing one passes cursor validation, the surfaced error is a user
error whose code is the single code shared by all failing shards when that
code is unique across the failures, and the generic code 17022 otherwise; all
opened cursors are killed before it propagates. -/
theorem run_shard_failure_representative_code (env : Env) (cmdObj : ClientCmd)
    (pipeline : PipelineInfo) (fullns : String) (pre post : List ShardResult)
    (r : ShardResult)
    (hparse : env.parseOk = true) (hdb : env.dbFound = true)
    (hsharded : (env.shardingEnabled && env.collSharded) = true)
    (hexplain : pipeline.isExplain = false)
    (hnolegacy : doAnyShardsNotSupportCursors env.shardResults = false)
    (hsplit : env.shardResults = pre ++ r :: post)
    (hpre : ∀ p ∈ pre, p.ok = true ∧ shardValidates fullns p = true)
    (hfail : r.ok = false) :
    (run env cmdObj pipeline fullns).2 =
      .raised (.user (representativeErrorCode env.shardResults)) ∧
    (run env cmdObj pipeline fullns).1.killed = killAllCursors env.shardResults ∧
    remainingOpen env.shardResults (run env cmdObj pipeline fullns).1.killed = [] := by
  have hloopcons : parseCursorsLoop (pre ++ r :: post) fullns (r :: post) =
      .error (.user (representativeErrorCode (pre ++ r :: post))) := by
    unfold parseCursorsLoop
    rw [hfail]
    simp
  have happ : parseCursorsLoop (pre ++ r :: post) fullns (pre ++ r :: post) =
      .error (.user (representativeErrorCode (pre ++ r :: post))) :=
    (parseCursorsLoop_error_append (pre ++ r :: post) pre (r :: post) fullns hpre
      _).mpr hloopcons
  have hpcfull : parseCursors env.shardResults fullns =
      (.error (.user (representativeErrorCode env.shardResults)),
       killAllCursors env.shardResults) := by
    unfold parseCursors
    rw [hsplit, happ]
  have hrun : run env cmdObj pipeline fullns =
      ({ shardDispatches := [buildShardCmd cmdObj false], mergeDispatched := none,
         passthroughCalls := 0, killed := killAllCursors env.shardResults,
         localMergeRun := false },
       .raised (.user (representativeErrorCode env.shardResults))) := by
    unfold run
    rw [hparse, hdb, hsharded, hexplain]
    simp [hnolegacy, hpcfull, emptyTrace]
  refine ⟨by rw [hrun], by rw [hrun], ?_⟩
  rw [hrun]
  exact remainingOpen_killAllCursors env.shardResults

/-- Witness for C2 at a concrete input: two failing shards sharing code 42,
so the surfaced user error carries 42. -/
theorem run_shard_failure_representative_code_witness :
    (run { sampleEnvBase with shardResults := [sampleFailShard, sampleFailShard2] }
        samplePlainCmd samplePipe "a.b").2 = .raised (.user 42) := by
  exact (run_shard_failure_representative_code
    { sampleEnvBase with shardResults := [sampleFailShard, sampleFailShard2] }
    samplePlainCmd samplePipe "a.b" [] [sampleFailShard2] sampleFailShard
    rfl rfl rfl rfl rfl rfl (by intro p hp; simp at hp) rfl).1

/-- C2 counterexample: with an ok-but-malformed shard placed before the single
failing shard (unique code 42), the operation surfaces the fatal assertion
17023 for the malformed shard instead of a user error with code 42, so the
claim as stated is false. -/
theorem run_shard_failure_code_counterexample :
    (run { sampleEnvBase with shardResults := [sampleBadBatchShard, sampleFailShard] }
        samplePlainCmd samplePipe "a.b").2 = .raised (.fatal 17023) ∧
    getUniqueCodeFromCommandResults [sampleBadBatchShard, sampleFailShard] = 42 ∧
    Outcome.raised (.fatal 17023) ≠ Outcome.raised (.user 42) :=
  ⟨rfl, rfl, by decide⟩

/-- C8: whenever the operation takes a local-merge fallback path — the global
no-cursor fallback triggered by a legacy shard, or the narrower $mergeCursors
fallback triggered by the merge host — a client command carrying a `cursor`
field fails with `uassert 17020`, and a merge pipeline that cannot run inside
mongos fails with `uassert 17021`, instead of silently degrading. -/
theorem run_fallback_cursor_request_fails (env : Env) (cmdObj : ClientCmd)
    (pipeline : PipelineInfo) (fullns : String)
    (hparse : env.parseOk = true) (hdb : env.dbFound = true)
    (hsharded : (env.shardingEnabled && env.collSharded) = true)
    (hexplain : pipeline.isExplain = false)
    (hfb : doAnyShardsNotSupportCursors env.shardResults = true ∨
      ((∃ handles, (parseCursors env.shardResults fullns).1 = .ok handles) ∧
        env.mergeResult.ok = false ∧
        env.mergeResult.errmsg = mergeCursorsUnrecognizedMsg)) :
    (cmdObj.cursor.isSome = true →
      (run env cmdObj pipeline fullns).2 = .raised (.user 17020)) ∧
    (cmdObj.cursor = none → pipeline.canRunInMongos = false →
      (run env cmdObj pipeline fullns).2 = .raised (.user 17021)) := by
  have main : ∀ e : AggError, uassertCanMergeInMongos pipeline cmdObj = .error e →
      (run env cmdObj pipeline fullns).2 = .raised e := by
    intro e hu
    rcases hfb with hany | ⟨⟨handles, hpc⟩, hok, hmsg⟩
    · exact run_fallback_branch_raises env cmdObj pipeline fullns e
        hparse hdb hsharded hexplain hany hu
    · have hwms : wasMergeCursorsSupported env.mergeResult = false := by
        simp [wasMergeCursorsSupported, hmsg]
      by_cases hany : doAnyShardsNotSupportCursors env.shardResults = true
      · exact run_fallback_branch_raises env cmdObj pipeline fullns e
          hparse hdb hsharded hexplain hany hu
      · exact run_merge_branch_raises env cmdObj pipeline fullns handles e
          hparse hdb hsharded hexplain (by simpa using hany) hpc hok hwms hu
  constructor
  · intro hcur
    exact main _ (uassertCanMergeInMongos_cursorRequested pipeline cmdObj hcur)
  · intro hnone hcan
    exact main _ (uassertCanMergeInMongos_cannotRun pipeline cmdObj hnone hcan)

/-- Witness for C8 at a concrete input: a legacy shard plus a client cursor
request yields `uassert 17020`. -/
theorem run_fallback_cursor_request_fails_witness :
    (run { sampleEnvBase with shardResults := [sampleCursorShard, sampleLegacyShard] }
        sampleCursorCmd samplePipe "a.b").2 = .raised (.user 17020) := by
  exact (run_fallback_cursor_request_fails
    { sampleEnvBase with shardResults := [sampleCursorShard, sampleLegacyShard] }
    sampleCursorCmd samplePipe "a.b" rfl rfl rfl rfl (.inl rfl)).1 rfl

def sampleMergeLegacyHost : HostResult :=
  { ok := false, code := 0, errmsg := mergeCursorsUnrecognizedMsg }

/-- C6 (amended): after the merge dispatch, the router enters the local-merge
path (guarded by `uassertCanMergeInMongos`, so it actually runs the merge
pipeline locally exactly when additionally the client did not request a cursor
and the pipeline can run in mongos) precisely when the merge reply is not ok
and its errmsg is the exact unrecognized-$mergeCursors message; in every other
case the merge reply is appended verbatim — embedded error fields included —
and command success equals its ok field. -/
theorem run_merge_result_handling (env : Env) (cmdObj : ClientCmd)
    (pipeline : PipelineInfo) (fullns : String) (handles : List CursorHandle)
    (hparse : env.parseOk = true) (hdb : env.dbFound = true)
    (hsharded : (env.shardingEnabled && env.collSharded) = true)
    (hexplain : pipeline.isExplain = false)
    (hnolegacy : doAnyShardsNotSupportCursors env.shardResults = false)
    (hpc : (parseCursors env.shardResults fullns).1 = .ok handles) :
    (run env cmdObj pipeline fullns).1.mergeDispatched =
      some (buildMergeCmd cmdObj handles) ∧
    ((run env cmdObj pipeline fullns).1.localMergeRun = true ↔
      (env.mergeResult.ok = false ∧
       env.mergeResult.errmsg = mergeCursorsUnrecognizedMsg ∧
       cmdObj.cursor = none ∧ pipeline.canRunInMongos = true)) ∧
    ((run env cmdObj pipeline fullns).2 = .localMergeCursors handles ↔
      (env.mergeResult.ok = false ∧
       env.mergeResult.errmsg = mergeCursorsUnrecognizedMsg ∧
       cmdObj.cursor = none ∧ pipeline.canRunInMongos = true)) ∧
    ((env.mergeResult.ok = true ∨
      env.mergeResult.errmsg ≠ mergeCursorsUnrecognizedMsg) →
      (run env cmdObj pipeline fullns).2 =
        .mergedVerbatim env.mergeResult.ok env.mergeResult) := by
  have hpc2 := parseCursors_ok_snd env.shardResults fullns handles hpc
  have hmain : run env cmdObj pipeline fullns =
      (if env.mergeResult.ok = false ∧
          wasMergeCursorsSupported env.mergeResult = false then
        match uassertCanMergeInMongos pipeline cmdObj with
        | .error e =>
          ({ shardDispatches := [buildShardCmd cmdObj false],
             mergeDispatched := some (buildMergeCmd cmdObj handles),
             passthroughCalls := 0, killed := [], localMergeRun := false },
           .raised e)
        | .ok _ =>
          ({ shardDispatches := [buildShardCmd cmdObj false],
             mergeDispatched := some (buildMergeCmd cmdObj handles),
             passthroughCalls := 0, killed := [], localMergeRun := true },
           .localMergeCursors handles)
      else
        ({ shardDispatches := [buildShardCmd cmdObj false],
           mergeDispatched := some (buildMergeCmd cmdObj handles),
           passthroughCalls := 0, killed := [], localMergeRun := false },
         .mergedVerbatim env.mergeResult.ok env.mergeResult)) := by
    unfold run
    rw [hparse, hdb, hsharded, hexplain]
    simp [hnolegacy, hpc2, emptyTrace]
  rw [hmain]
  by_cases hcond : env.mergeResult.ok = false ∧
      wasMergeCursorsSupported env.mergeResult = false
  · rw [if_pos hcond]
    obtain ⟨hok, hwms⟩ := hcond
    have hmsg : env.mergeResult.errmsg = mergeCursorsUnrecognizedMsg := by
      by_contra hne
      simp [wasMergeCursorsSupported, hne] at hwms
    rcases hcur : cmdObj.cursor with _ | x
    · rcases hcan : pipeline.canRunInMongos with _ | _
      · rw [uassertCanMergeInMongos_cannotRun pipeline cmdObj hcur hcan]
        refine ⟨rfl, by simp [hcan], by simp [hcan], ?_⟩
        rintro (h | h)
        · exact absurd h (by simp [hok])
        · exact absurd hmsg h
      · rw [uassertCanMergeInMongos_passes pipeline cmdObj hcur hcan]
        refine ⟨rfl, by simp [hok, hmsg, hcur, hcan], by simp [hok, hmsg, hcur, hcan], ?_⟩
        rintro (h | h)
        · exact absurd h (by simp [hok])
        · exact absurd hmsg h
    · rw [uassertCanMergeInMongos_cursorRequested pipeline cmdObj (by simp [hcur])]
      refine ⟨rfl, by simp [hcur], by simp [hcur], ?_⟩
      rintro (h | h)
      · exact absurd h (by simp [hok])
      · exact absurd hmsg h
  · rw [if_neg hcond]
    have hrhs : ¬(env.mergeResult.ok = false ∧
        env.mergeResult.errmsg = mergeCursorsUnrecognizedMsg ∧
        cmdObj.cursor = none ∧ pipeline.canRunInMongos = true) := by
      rintro ⟨hok, hmsg, -, -⟩
      exact hcond ⟨hok, by simp [wasMergeCursorsSupported, hmsg]⟩
    exact ⟨rfl, iff_of_false (by simp) hrhs, iff_of_false (by simp) hrhs,
      fun _ => rfl⟩

/-- Witness for C6 at a concrete input: the merge host rejecting $mergeCursors
with a plain client command makes the router merge locally over the shard
cursors. -/
theorem run_merge_result_handling_witness :
    (run { sampleEnvBase with mergeResult := sampleMergeLegacyHost }
        samplePlainCmd samplePipe "a.b").2 =
      .localMergeCursors [("h1:27017", 7)] := by
  exact ((run_merge_result_handling
    { sampleEnvBase with mergeResult := sampleMergeLegacyHost }
    samplePlainCmd samplePipe "a.b" [("h1:27017", 7)]
    rfl rfl rfl rfl rfl rfl).2.2.1).mpr ⟨rfl, rfl, rfl, rfl⟩

/-- C6 counterexample: with a merge reply that is not ok and carries exactly
the unrecognized-$mergeCursors errmsg but a client command holding a `cursor`
field, the router neither merges locally nor appends the reply verbatim — it
raises `uassert 17020` — so the biconditional of the claim as stated is
false. -/
theorem run_merge_fallback_counterexample :
    (run { sampleEnvBase with mergeResult := sampleMergeLegacyHost }
        sampleCursorCmd samplePipe "a.b").2 = .raised (.user 17020) ∧
    (run { sampleEnvBase with mergeResult := sampleMergeLegacyHost }
        sampleCursorCmd samplePipe "a.b").1.localMergeRun = false ∧
    sampleMergeLegacyHost.ok = false ∧
    sampleMergeLegacyHost.errmsg = mergeCursorsUnrecognizedMsg :=
  ⟨rfl, rfl, rfl, rfl⟩

lemma run_shardDispatches_cases (env : Env) (cmdObj : ClientCmd)
    (pipeline : PipelineInfo) (fullns : String) :
    (run env cmdObj pipeline fullns).1.shardDispatches = [] ∨
    (run env cmdObj pipeline fullns).1.shardDispatches =
      [buildShardCmd cmdObj pipeline.isExplain] ∨
    (run env cmdObj pipeline fullns).1.shardDispatches =
      [buildShardCmd cmdObj pipeline.isExplain, buildFallbackShardCmd cmdObj] := by
  unfold run aggPassthrough noCursorFallback
  dsimp only
  repeat' split
  all_goals first
    | (left; rfl)
    | (right; left; rfl)
    | (right; right; rfl)

/-- C7 (amended): the shard dispatches of any execution, in order, are either
none, one, or two commands; the first (initial) dispatch always carries
`fromRouter:true`, the forwarded `$queryOptions`, a `cursor:\x7bbatchSize:0\x7d`
field unless the pipeline is an explain (then no cursor field), and the
forwarded maxTimeMS; the second command, present only on the fallback
re-dispatch, carries `fromRouter:true` and the forwarded `$queryOptions` but
neither a cursor field nor maxTimeMS. -/
theorem run_dispatch_command_fields (env : Env) (cmdObj : ClientCmd)
    (pipeline : PipelineInfo) (fullns : String) :
    (run env cmdObj pipeline fullns).1.shardDispatches = [] ∨
    (∃ c₁ : ShardCmd,
      (run env cmdObj pipeline fullns).1.shardDispatches = [c₁] ∧
      c₁.fromRouter = true ∧ c₁.queryOptions = cmdObj.queryOptions ∧
      c₁.cursorBatchSize = (if pipeline.isExplain then none else some 0) ∧
      c₁.maxTimeMS = cmdObj.maxTimeMS) ∨
    (∃ c₁ c₂ : ShardCmd,
      (run env cmdObj pipeline fullns).1.shardDispatches = [c₁, c₂] ∧
      c₁.fromRouter = true ∧ c₁.queryOptions = cmdObj.queryOptions ∧
      c₁.cursorBatchSize = (if pipeline.isExplain then none else some 0) ∧
      c₁.maxTimeMS = cmdObj.maxTimeMS ∧
      c₂.fromRouter = true ∧ c₂.queryOptions = cmdObj.queryOptions ∧
      c₂.cursorBatchSize = none ∧ c₂.maxTimeMS = none) := by
  rcases run_shardDispatches_cases env cmdObj pipeline fullns with h | h | h
  · exact .inl h
  · exact .inr (.inl ⟨buildShardCmd cmdObj pipeline.isExplain, h,
      rfl, rfl, rfl, rfl⟩)
  · exact .inr (.inr ⟨buildShardCmd cmdObj pipeline.isExplain,
      buildFallbackShardCmd cmdObj, h, rfl, rfl, rfl, rfl, rfl, rfl, rfl, rfl⟩)

/-- C7 counterexample: in the legacy fallback, the re-dispatched shard command
omits the cursor field (no batchSize 0) and drops maxTimeMS although the
client supplied one, so the claim as stated — every dispatch requests
batchSize 0 and forwards maxTimeMS — is false. -/
theorem run_dispatch_command_fields_counterexample :
    ((run { sampleEnvBase with shardResults := [sampleCursorShard, sampleLegacyShard] }
        sampleMaxTimeCmd samplePipe "a.b").1.shardDispatches.map
      fun c => (c.cursorBatchSize, c.maxTimeMS)) =
      [(some 0, some 100), (none, none)] ∧
    sampleMaxTimeCmd.maxTimeMS = some 100 :=
  ⟨rfl, rfl⟩

end ClusterPipelineCmd
